import Mathlib

/-!
# DSA key-pair generation (`lib/pkcs11_dsa.c`)

A shallow embedding of `pkcs11_genDSA` and of the helpers it is built from
(`compare_CKA`, `has_extractable`, `new_dsaparam_from_file`,
`get_OPENSSL_bytes_for_BIGNUM`, `get_DSAparam_p/q/g`), followed by the
properties of the template merge, of the parameter validation and of the
post-generation copy.

Conventions of the embedding.

* A pointer is represented by the value bytes it refers to; the null pointer
  is the empty list.  Reading through a pointer that offers no byte is an
  invalid read and is modelled as a missing result (`none`).
* The file system, the OpenSSL decoders and the allocator are inputs: a
  `ParamFile` records what they answer for the given file name.
* The token is a state machine `Token σ`; every call made to it is also
  appended to a call log, so that statements about which calls happen can be
  written down.
* Diagnostic output (stdout/stderr) is not represented.
-/

namespace Pkcs11Dsa

/-! ## PKCS #11 base types and constants -/

abbrev CK_BYTE := Nat
abbrev CK_BBOOL := Nat
abbrev CK_ULONG := Nat
abbrev CK_RV := Nat
abbrev CK_OBJECT_HANDLE := Nat
abbrev CK_ATTRIBUTE_TYPE := Nat
abbrev CK_MECHANISM_TYPE := Nat

def CK_TRUE : CK_BBOOL := 1
def CK_FALSE : CK_BBOOL := 0
def CKR_OK : CK_RV := 0

/-- Modelled from the spec: the "type tag (from a fixed enumeration)" of an
attribute descriptor.  The header that defines the tags (`pkcs11t.h`) is not
among the sources; the numbers are the ones the PKCS #11 standard assigns. -/
def CKA_TOKEN : CK_ATTRIBUTE_TYPE := 0x001
/-- Modelled from the spec: attribute tag, see `CKA_TOKEN`. -/
def CKA_PRIVATE : CK_ATTRIBUTE_TYPE := 0x002
/-- Modelled from the spec: attribute tag, see `CKA_TOKEN`. -/
def CKA_LABEL : CK_ATTRIBUTE_TYPE := 0x003
/-- Modelled from the spec: attribute tag, see `CKA_TOKEN`. -/
def CKA_ID : CK_ATTRIBUTE_TYPE := 0x102
/-- Modelled from the spec: attribute tag, see `CKA_TOKEN`. -/
def CKA_SENSITIVE : CK_ATTRIBUTE_TYPE := 0x103
/-- Modelled from the spec: attribute tag, see `CKA_TOKEN`. -/
def CKA_SIGN : CK_ATTRIBUTE_TYPE := 0x108
/-- Modelled from the spec: attribute tag, see `CKA_TOKEN`. -/
def CKA_VERIFY : CK_ATTRIBUTE_TYPE := 0x10A
/-- Modelled from the spec: attribute tag, see `CKA_TOKEN`. -/
def CKA_PRIME : CK_ATTRIBUTE_TYPE := 0x130
/-- Modelled from the spec: attribute tag, see `CKA_TOKEN`. -/
def CKA_SUBPRIME : CK_ATTRIBUTE_TYPE := 0x131
/-- Modelled from the spec: attribute tag, see `CKA_TOKEN`. -/
def CKA_BASE : CK_ATTRIBUTE_TYPE := 0x132
/-- Modelled from the spec: attribute tag, see `CKA_TOKEN`. -/
def CKA_EXTRACTABLE : CK_ATTRIBUTE_TYPE := 0x162

/-- Modelled from the spec: "the key-pair-generation mechanism for this
algorithm family"; the number is the one of the PKCS #11 standard. -/
def CKM_DSA_KEY_PAIR_GEN : CK_MECHANISM_TYPE := 0x010

/-- The C struct `CK_ATTRIBUTE`: `{type, pValue, ulValueLen}`.  `pValue` is
the list of value bytes the pointer refers to (empty for `NULL`);
`ulValueLen` is the declared length, stored independently of it. -/
structure CK_ATTRIBUTE where
  type : CK_ATTRIBUTE_TYPE
  pValue : List CK_BYTE
  ulValueLen : CK_ULONG
deriving DecidableEq, Repr

/-- Modelled from the spec: the generation-mode enumeration
"session, token, session-for-wrapping, token-for-wrapping"; its C
declaration (`pkcs11lib.h`) is not among the sources. -/
inductive key_generation_t where
  | kg_session
  | kg_token
  | kg_session_for_wrapping
  | kg_token_for_wrapping
deriving DecidableEq, Repr

/-- Modelled from the spec: the return codes of `func_rc` that
`pkcs11_genDSA` uses; the C enumeration (`pkcs11lib.h`) is not among the
sources. -/
inductive func_rc where
  | rc_ok
  | rc_error_invalid_parameter_for_method
  | rc_error_pkcs11_api
deriving DecidableEq, Repr

open key_generation_t func_rc

/-! ## `compare_CKA`, `lfind`, `has_extractable` -/

/-- Source lines 32-35: `a->type == b->type ? 0 : -1`. -/
def compare_CKA (a b : CK_ATTRIBUTE) : Int :=
  if a.type = b.type then 0 else -1

/-- The C library routine `lfind(key, base, &n, size, compar)`: the position
of the first element `e` of `base` with `compar key e = 0`, if any. -/
def lfind {α : Type} (key : α) (base : List α) (compar : α → α → Int) : Option Nat :=
  match base with
  | [] => none
  | x :: xs =>
    if compar key x = 0 then some 0
    else match lfind key xs compar with
      | some k => some (k + 1)
      | none => none

/-- Source lines 37-51.  The search key is `{CKA_EXTRACTABLE, NULL, 0}`; on a
match the first byte behind `match->pValue` is returned, without looking at
`ulValueLen`; `none` is the invalid read through a pointer with no byte. -/
def has_extractable (template : List CK_ATTRIBUTE) : Option CK_BBOOL :=
  match lfind (CK_ATTRIBUTE.mk CKA_EXTRACTABLE [] 0) template compare_CKA with
  | some k =>
    match template[k]? with
    | some m => m.pValue.head?
    | none => none
  | none => some CK_FALSE

/-! ## Loading the domain parameters -/

/-- An OpenSSL `BIGNUM`, as the big-endian bytes of its magnitude:
`BN_num_bytes` is the length, `BN_bn2bin` writes these bytes and returns how
many it wrote.  The number zero has no byte. -/
abbrev BIGNUM := List CK_BYTE

/-- The fields of an OpenSSL `DSA` object read by `DSA_get0_pqg`; each may be
a null pointer. -/
structure DSA where
  p : Option BIGNUM
  q : Option BIGNUM
  g : Option BIGNUM
deriving DecidableEq, Repr

/-- What the environment answers for the parameter file: whether each `fopen`
succeeds, what each decoder returns, and for which sizes `OPENSSL_malloc`
hands out memory. -/
structure ParamFile where
  fopen_rb : Bool
  d2i_DSAparams_fp : Option DSA
  fopen_r : Bool
  PEM_read_DSAparams : Option DSA
  OPENSSL_malloc : Nat → Bool

/-- Source lines 76-119: DER first, then the file is reopened and PEM is
tried. -/
def new_dsaparam_from_file (f : ParamFile) : Option DSA :=
  if f.fopen_rb then
    match f.d2i_DSAparams_fp with
    | some dsaparam => some dsaparam
    | none =>
      if f.fopen_r then
        match f.PEM_read_DSAparams with
        | some dsaparam => some dsaparam
        | none => none
      else none
  else none

/-- Source lines 148-171; the result is the returned length together with
what `*buf` refers to afterwards (`buf` itself is never null at the three
call sites). -/
def get_OPENSSL_bytes_for_BIGNUM (f : ParamFile) (b : Option BIGNUM) :
    CK_ULONG × List CK_BYTE :=
  match b with
  | none => (0, [])
  | some bn =>
    if f.OPENSSL_malloc bn.length = false then (0, [])
    else
      let rv := bn.length
      if rv = 0 then (0, []) else (rv, bn)

/-- Source lines 174-178 (the handle is not null where it is called). -/
def get_DSAparam_p (f : ParamFile) (hndl : DSA) : CK_ULONG × List CK_BYTE :=
  get_OPENSSL_bytes_for_BIGNUM f hndl.p

/-- Source lines 180-184. -/
def get_DSAparam_q (f : ParamFile) (hndl : DSA) : CK_ULONG × List CK_BYTE :=
  get_OPENSSL_bytes_for_BIGNUM f hndl.q

/-- Source lines 186-190. -/
def get_DSAparam_g (f : ParamFile) (hndl : DSA) : CK_ULONG × List CK_BYTE :=
  get_OPENSSL_bytes_for_BIGNUM f hndl.g

/-! ## Templates and the override loops -/

/-- Source lines 243-255: the local array `pubktemplate`.  `id` stands for
the bytes of the local array `id` up to its first zero byte (the array is
never written, so they are whatever the stack holds). -/
def pubktemplate (gentype : key_generation_t) (label id : List CK_BYTE)
    (dsa_p : List CK_BYTE) (dsa_p_len : CK_ULONG)
    (dsa_q : List CK_BYTE) (dsa_q_len : CK_ULONG)
    (dsa_g : List CK_BYTE) (dsa_g_len : CK_ULONG) : List CK_ATTRIBUTE :=
  [ ⟨CKA_TOKEN, if gentype = kg_token then [CK_TRUE] else [CK_FALSE], 1⟩,
    ⟨CKA_LABEL, label, label.length⟩,
    ⟨CKA_ID, id, id.length⟩,
    ⟨CKA_PRIME, dsa_p, dsa_p_len⟩,
    ⟨CKA_SUBPRIME, dsa_q, dsa_q_len⟩,
    ⟨CKA_BASE, dsa_g, dsa_g_len⟩,
    ⟨CKA_VERIFY, [CK_FALSE], 1⟩ ]

/-- Source lines 257-266: the local array `prvktemplate`. -/
def prvktemplate (gentype : key_generation_t) (label id : List CK_BYTE) :
    List CK_ATTRIBUTE :=
  [ ⟨CKA_TOKEN, if gentype = kg_token then [CK_TRUE] else [CK_FALSE], 1⟩,
    ⟨CKA_PRIVATE, [CK_TRUE], 1⟩,
    ⟨CKA_SENSITIVE, [CK_TRUE], 1⟩,
    ⟨CKA_EXTRACTABLE,
      if gentype = kg_session_for_wrapping then [CK_TRUE] else [CK_FALSE], 1⟩,
    ⟨CKA_LABEL, label, label.length⟩,
    ⟨CKA_ID, id, id.length⟩,
    ⟨CKA_SIGN, [CK_FALSE], 1⟩ ]

/-- One pass of the body of the loops at source lines 269-284 and 287-302:
`lfind` the slot with the type of `attr`; if there is one and its
`ulValueLen` equals that of `attr`, its `pValue` becomes that of `attr`. -/
def adjust (template : List CK_ATTRIBUTE) (attr : CK_ATTRIBUTE) : List CK_ATTRIBUTE :=
  match lfind attr template compare_CKA with
  | some k =>
    match template[k]? with
    | some m =>
      if m.ulValueLen = attr.ulValueLen then
        template.set k { m with pValue := attr.pValue }
      else template
    | none => template
  | none => template

/-- The loop `for(i=0; i<numattrs; i++)` over `attrs[0..numattrs)`. -/
def adjust_template (template attrs : List CK_ATTRIBUTE) : List CK_ATTRIBUTE :=
  attrs.foldl adjust template

/-! ## The token and `pkcs11_genDSA` -/

/-- The two entry points of the token's function list that are used, as
transitions on a token state `σ` (which includes the session).
`C_GenerateKeyPair` receives the mechanism, both templates and the current
contents of the two handle slots, and answers with its return value and the
contents it leaves in the slots.  `C_CopyObject` receives the handle and the
template; the handle it produces is never read by the caller. -/
structure Token (σ : Type) where
  C_GenerateKeyPair : σ → CK_MECHANISM_TYPE → List CK_ATTRIBUTE → List CK_ATTRIBUTE →
    CK_OBJECT_HANDLE → CK_OBJECT_HANDLE → CK_RV × CK_OBJECT_HANDLE × CK_OBJECT_HANDLE × σ
  C_CopyObject : σ → CK_OBJECT_HANDLE → List CK_ATTRIBUTE → CK_RV × σ

/-- An entry of the call log. -/
inductive Call where
  | GenerateKeyPair (mechanism : CK_MECHANISM_TYPE) (pub prv : List CK_ATTRIBUTE)
  | CopyObject (h : CK_OBJECT_HANDLE) (template : List CK_ATTRIBUTE)
deriving DecidableEq, Repr

/-- What a run of `pkcs11_genDSA` leaves behind: the returned code (`none`
when the run does not return because of an invalid read), the contents of the
two handle slots, the calls made to the token in order, and the token's
state. -/
structure Run (σ : Type) where
  rc : Option func_rc
  pubkhandle : CK_OBJECT_HANDLE
  prvkhandle : CK_OBJECT_HANDLE
  calls : List Call
  token : σ

/-- Source lines 327-330: the local array `tokentemplate`, built from the
value `ck_extractable` that `has_extractable` returned. -/
def tokentemplate (ck_extractable : CK_BBOOL) : List CK_ATTRIBUTE :=
  [ ⟨CKA_TOKEN, [CK_TRUE], 1⟩, ⟨CKA_EXTRACTABLE, [ck_extractable], 1⟩ ]

/-- Source lines 192-362. -/
def pkcs11_genDSA {σ : Type} (tok : Token σ) (session : σ)
    (label id : List CK_BYTE) (param : ParamFile) (attrs : List CK_ATTRIBUTE)
    (pubkhandle prvkhandle : CK_OBJECT_HANDLE) (gentype : key_generation_t) : Run σ :=
  match new_dsaparam_from_file param with
  | none => ⟨some rc_error_invalid_parameter_for_method, pubkhandle, prvkhandle, [], session⟩
  | some dsa =>
    let dsa_p := get_DSAparam_p param dsa
    let dsa_q := get_DSAparam_q param dsa
    let dsa_g := get_DSAparam_g param dsa
    if dsa_p.1 = 0 ∨ dsa_p.1 = 0 ∨ dsa_p.1 = 0 then
      ⟨some rc_error_invalid_parameter_for_method, pubkhandle, prvkhandle, [], session⟩
    else
      let prvk := adjust_template (prvktemplate gentype label id) attrs
      let pubk := adjust_template
        (pubktemplate gentype label id dsa_p.2 dsa_p.1 dsa_q.2 dsa_q.1 dsa_g.2 dsa_g.1) attrs
      let gen := tok.C_GenerateKeyPair session CKM_DSA_KEY_PAIR_GEN pubk prvk
        pubkhandle prvkhandle
      let log₁ := [Call.GenerateKeyPair CKM_DSA_KEY_PAIR_GEN pubk prvk]
      if gen.1 ≠ CKR_OK then
        ⟨some rc_error_pkcs11_api, gen.2.1, gen.2.2.1, log₁, gen.2.2.2⟩
      else if gentype = kg_token_for_wrapping then
        match has_extractable attrs with
        | none => ⟨none, gen.2.1, gen.2.2.1, log₁, gen.2.2.2⟩
        | some ck_extractable =>
          let cp₁ := tok.C_CopyObject gen.2.2.2 gen.2.2.1 (tokentemplate ck_extractable)
          let cp₂ := tok.C_CopyObject cp₁.2 gen.2.1 ((tokentemplate ck_extractable).take 1)
          ⟨some rc_ok, gen.2.1, gen.2.2.1,
            log₁ ++ [Call.CopyObject gen.2.2.1 (tokentemplate ck_extractable),
                     Call.CopyObject gen.2.1 ((tokentemplate ck_extractable).take 1)],
            cp₂.2⟩
      else
        ⟨some rc_ok, gen.2.1, gen.2.2.1, log₁, gen.2.2.2⟩

/-! ## Auxiliary notions used in the statements -/

/-- The slot of `template` carrying tag `T`: the first one, as `lfind` sees
it. -/
def slot_of (template : List CK_ATTRIBUTE) (T : CK_ATTRIBUTE_TYPE) : Option CK_ATTRIBUTE :=
  template.find? (fun s => decide (s.type = T))

/-- The effect of one override descriptor on one slot. -/
def adjust_slot (attr slot : CK_ATTRIBUTE) : CK_ATTRIBUTE :=
  if slot.type = attr.type ∧ slot.ulValueLen = attr.ulValueLen then
    { slot with pValue := attr.pValue }
  else slot

/-- The effect of a whole override list on one slot. -/
def adjust_slots (attrs : List CK_ATTRIBUTE) (slot : CK_ATTRIBUTE) : CK_ATTRIBUTE :=
  attrs.foldl (fun s a => adjust_slot a s) slot

/-- The frame of a merge: `merged` has the tags and declared lengths of `tpl`
in the same order, its tags are pairwise distinct, and a slot whose tag no
descriptor of `attrs` carries is the same in both. -/
def keeps_frame (tpl merged attrs : List CK_ATTRIBUTE) : Prop :=
  merged.map CK_ATTRIBUTE.type = tpl.map CK_ATTRIBUTE.type ∧
  merged.map CK_ATTRIBUTE.ulValueLen = tpl.map CK_ATTRIBUTE.ulValueLen ∧
  (merged.map CK_ATTRIBUTE.type).Nodup ∧
  ∀ (i : Nat) (slot : CK_ATTRIBUTE), tpl[i]? = some slot →
    (∀ a ∈ attrs, a.type ≠ slot.type) → merged[i]? = some slot

/-- The first byte behind the value pointer of the slot tagged `T`, i.e. the
slot read as a `CK_BBOOL`; `none` if there is no such slot or no such byte. -/
def bool_value (template : List CK_ATTRIBUTE) (T : CK_ATTRIBUTE_TYPE) : Option CK_BBOOL :=
  (slot_of template T).bind (fun s => s.pValue.head?)

/-- Modelled from the spec: "token-class means mode ∈ {token,
token-for-wrapping}". -/
def token_class (gentype : key_generation_t) : Prop :=
  gentype = kg_token ∨ gentype = kg_token_for_wrapping

instance (gentype : key_generation_t) : Decidable (token_class gentype) := by
  unfold token_class; infer_instance

/-- The public template handed to `C_GenerateKeyPair`: `pubktemplate` filled
with what was extracted from `dsa`, after the override loop. -/
def passed_pubktemplate (gentype : key_generation_t) (label id : List CK_BYTE)
    (param : ParamFile) (dsa : DSA) (attrs : List CK_ATTRIBUTE) : List CK_ATTRIBUTE :=
  adjust_template
    (pubktemplate gentype label id
      (get_DSAparam_p param dsa).2 (get_DSAparam_p param dsa).1
      (get_DSAparam_q param dsa).2 (get_DSAparam_q param dsa).1
      (get_DSAparam_g param dsa).2 (get_DSAparam_g param dsa).1) attrs

/-- The private template handed to `C_GenerateKeyPair`. -/
def passed_prvktemplate (gentype : key_generation_t) (label id : List CK_BYTE)
    (attrs : List CK_ATTRIBUTE) : List CK_ATTRIBUTE :=
  adjust_template (prvktemplate gentype label id) attrs

/-- The token's answer to the generation call of a run. -/
def generation {σ : Type} (tok : Token σ) (session : σ)
    (label id : List CK_BYTE) (param : ParamFile) (dsa : DSA) (attrs : List CK_ATTRIBUTE)
    (pubkhandle prvkhandle : CK_OBJECT_HANDLE) (gentype : key_generation_t) :
    CK_RV × CK_OBJECT_HANDLE × CK_OBJECT_HANDLE × σ :=
  tok.C_GenerateKeyPair session CKM_DSA_KEY_PAIR_GEN
    (passed_pubktemplate gentype label id param dsa attrs)
    (passed_prvktemplate gentype label id attrs) pubkhandle prvkhandle

/-- The log entry of the generation call of a run. -/
def generation_call (gentype : key_generation_t) (label id : List CK_BYTE)
    (param : ParamFile) (dsa : DSA) (attrs : List CK_ATTRIBUTE) : Call :=
  Call.GenerateKeyPair CKM_DSA_KEY_PAIR_GEN
    (passed_pubktemplate gentype label id param dsa attrs)
    (passed_prvktemplate gentype label id attrs)

/-- Whether a log entry is a key-pair generation. -/
def Call.is_generation : Call → Bool
  | Call.GenerateKeyPair _ _ _ => true
  | Call.CopyObject _ _ => false

/-- Whether a log entry is an object duplication. -/
def Call.is_copy : Call → Bool
  | Call.GenerateKeyPair _ _ _ => false
  | Call.CopyObject _ _ => true

/-! ## Fixtures for concrete runs -/

/-- Domain parameters p = 0x8f45, q = 0xc7, g = 0x162a. -/
def sample_dsa : DSA := ⟨some [0x8f, 0x45], some [0xc7], some [0x16, 0x2a]⟩

/-- The parameters of `sample_dsa` with the subprime q replaced by zero. -/
def zero_q_dsa : DSA := ⟨some [0x8f, 0x45], some [], some [0x16, 0x2a]⟩

/-- The parameters of `sample_dsa` with the base g replaced by zero. -/
def zero_g_dsa : DSA := ⟨some [0x8f, 0x45], some [0xc7], some []⟩

/-- A parameter file holding `sample_dsa` in DER form; the allocator refuses
only requests of size zero. -/
def sample_param : ParamFile :=
  { fopen_rb := true
    d2i_DSAparams_fp := some sample_dsa
    fopen_r := true
    PEM_read_DSAparams := none
    OPENSSL_malloc := fun n => decide (0 < n) }

/-- A parameter file holding `zero_q_dsa` in DER form. -/
def zero_q_param : ParamFile :=
  { sample_param with d2i_DSAparams_fp := some zero_q_dsa }

/-- A parameter file holding `zero_g_dsa` in PEM form: the DER decoder
rejects it and the second attempt succeeds. -/
def zero_g_param : ParamFile :=
  { sample_param with d2i_DSAparams_fp := none, PEM_read_DSAparams := some zero_g_dsa }

/-- A token that answers its n-th call with the n-th entry of `script`
(`CKR_OK` once the script is used up); its state counts the calls.  A
successful generation leaves the handles 0x101 and 0x102, a failed one
leaves the slots as they were. -/
def scripted_token (script : List CK_RV) : Token Nat :=
  { C_GenerateKeyPair := fun n _ _ _ pubh prvh =>
      if script.getD n CKR_OK = CKR_OK then (CKR_OK, 0x101, 0x102, n + 1)
      else (script.getD n CKR_OK, pubh, prvh, n + 1)
    C_CopyObject := fun n _ _ => (script.getD n CKR_OK, n + 1) }

/-! ## The override loops -/

theorem adjust_slot_type (a s : CK_ATTRIBUTE) : (adjust_slot a s).type = s.type := by
  unfold adjust_slot; split <;> rfl

theorem adjust_slot_len (a s : CK_ATTRIBUTE) :
    (adjust_slot a s).ulValueLen = s.ulValueLen := by
  unfold adjust_slot; split <;> rfl

theorem adjust_slot_other (a s : CK_ATTRIBUTE) (h : a.type ≠ s.type) :
    adjust_slot a s = s := by
  unfold adjust_slot
  rw [if_neg]
  rintro ⟨h1, _⟩
  exact h h1.symm

theorem adjust_slots_type (attrs : List CK_ATTRIBUTE) (s : CK_ATTRIBUTE) :
    (adjust_slots attrs s).type = s.type := by
  induction attrs generalizing s with
  | nil => rfl
  | cons a as ih =>
    show (adjust_slots as (adjust_slot a s)).type = s.type
    rw [ih, adjust_slot_type]

theorem adjust_slots_len (attrs : List CK_ATTRIBUTE) (s : CK_ATTRIBUTE) :
    (adjust_slots attrs s).ulValueLen = s.ulValueLen := by
  induction attrs generalizing s with
  | nil => rfl
  | cons a as ih =>
    show (adjust_slots as (adjust_slot a s)).ulValueLen = s.ulValueLen
    rw [ih, adjust_slot_len]

theorem adjust_slots_filter (attrs : List CK_ATTRIBUTE) (s : CK_ATTRIBUTE) :
    adjust_slots attrs s
      = adjust_slots (attrs.filter (fun a => decide (a.type = s.type))) s := by
  induction attrs generalizing s with
  | nil => rfl
  | cons a as ih =>
    show adjust_slots as (adjust_slot a s) = _
    by_cases h : a.type = s.type
    · rw [List.filter_cons_of_pos (by simpa using h)]
      show _ = adjust_slots _ (adjust_slot a s)
      rw [ih (adjust_slot a s), adjust_slot_type]
    · rw [List.filter_cons_of_neg (by simpa using h), adjust_slot_other a s h]
      exact ih s

theorem adjust_slots_untouched (attrs : List CK_ATTRIBUTE) (s : CK_ATTRIBUTE)
    (h : ∀ a ∈ attrs, a.type ≠ s.type) : adjust_slots attrs s = s := by
  rw [adjust_slots_filter]
  have : attrs.filter (fun a => decide (a.type = s.type)) = [] := by
    rw [List.filter_eq_nil_iff]
    intro a ha
    simpa using h a ha
  rw [this]; rfl

theorem map_adjust_slot_untouched (a : CK_ATTRIBUTE) (xs : List CK_ATTRIBUTE)
    (h : ∀ y ∈ xs, a.type ≠ y.type) : xs.map (adjust_slot a) = xs := by
  induction xs with
  | nil => rfl
  | cons y ys ih =>
    rw [List.map_cons, adjust_slot_other a y (h y (List.mem_cons_self _ _)),
      ih (fun z hz => h z (List.mem_cons_of_mem _ hz))]

theorem adjust_cons_eq (x : CK_ATTRIBUTE) (xs : List CK_ATTRIBUTE) (a : CK_ATTRIBUTE)
    (h : a.type = x.type) : adjust (x :: xs) a = adjust_slot a x :: xs := by
  unfold adjust adjust_slot
  simp only [lfind, compare_CKA, h, if_true]
  by_cases hl : x.ulValueLen = a.ulValueLen
  · simp [hl]
  · simp [hl]

theorem adjust_cons_ne (x : CK_ATTRIBUTE) (xs : List CK_ATTRIBUTE) (a : CK_ATTRIBUTE)
    (h : a.type ≠ x.type) : adjust (x :: xs) a = x :: adjust xs a := by
  have hc : compare_CKA a x ≠ 0 := by simp [compare_CKA, h]
  unfold adjust
  rw [lfind, if_neg hc]
  cases hk : lfind a xs compare_CKA with
  | none => rfl
  | some k =>
    cases hm : xs[k]? with
    | none => simp [hm]
    | some m =>
      by_cases hl : m.ulValueLen = a.ulValueLen
      · simp [hm, hl]
      · simp [hm, hl]

/-- On a template whose tags are pairwise distinct, one pass of the loop body
acts slot by slot. -/
theorem adjust_eq_map (tpl : List CK_ATTRIBUTE) (a : CK_ATTRIBUTE)
    (hnd : (tpl.map CK_ATTRIBUTE.type).Nodup) : adjust tpl a = tpl.map (adjust_slot a) := by
  induction tpl with
  | nil => rfl
  | cons x xs ih =>
    rw [List.map_cons, List.nodup_cons] at hnd
    by_cases h : a.type = x.type
    · rw [adjust_cons_eq x xs a h, List.map_cons, map_adjust_slot_untouched a xs]
      intro y hy hay
      exact hnd.1 (List.mem_map.mpr ⟨y, hy, by rw [← hay, h]⟩)
    · rw [adjust_cons_ne x xs a h, ih hnd.2, List.map_cons, adjust_slot_other a x h]

/-- On a template whose tags are pairwise distinct, the whole loop acts slot
by slot. -/
theorem adjust_template_eq_map (tpl attrs : List CK_ATTRIBUTE)
    (hnd : (tpl.map CK_ATTRIBUTE.type).Nodup) :
    adjust_template tpl attrs = tpl.map (adjust_slots attrs) := by
  induction attrs generalizing tpl with
  | nil =>
    have : adjust_slots [] = id := rfl
    rw [this, List.map_id]; rfl
  | cons a as ih =>
    show adjust_template (adjust tpl a) as = _
    rw [adjust_eq_map tpl a hnd, ih, List.map_map]
    · rfl
    · rw [List.map_map]
      have : CK_ATTRIBUTE.type ∘ adjust_slot a = CK_ATTRIBUTE.type := by
        funext s; exact adjust_slot_type a s
      rw [this]; exact hnd

theorem pubktemplate_nodup (gentype : key_generation_t) (label id : List CK_BYTE)
    (dsa_p : List CK_BYTE) (dsa_p_len : CK_ULONG) (dsa_q : List CK_BYTE) (dsa_q_len : CK_ULONG)
    (dsa_g : List CK_BYTE) (dsa_g_len : CK_ULONG) :
    ((pubktemplate gentype label id dsa_p dsa_p_len dsa_q dsa_q_len dsa_g dsa_g_len).map
      CK_ATTRIBUTE.type).Nodup := by
  simp [pubktemplate, CKA_TOKEN, CKA_LABEL, CKA_ID, CKA_PRIME, CKA_SUBPRIME, CKA_BASE,
    CKA_VERIFY]

theorem prvktemplate_nodup (gentype : key_generation_t) (label id : List CK_BYTE) :
    ((prvktemplate gentype label id).map CK_ATTRIBUTE.type).Nodup := by
  simp [prvktemplate, CKA_TOKEN, CKA_PRIVATE, CKA_SENSITIVE, CKA_EXTRACTABLE, CKA_LABEL,
    CKA_ID, CKA_SIGN]

theorem slot_of_map_adjust_slots (tpl attrs : List CK_ATTRIBUTE) (T : CK_ATTRIBUTE_TYPE) :
    slot_of (tpl.map (adjust_slots attrs)) T = (slot_of tpl T).map (adjust_slots attrs) := by
  unfold slot_of
  rw [List.find?_map]
  have : (fun s : CK_ATTRIBUTE => decide (s.type = T)) ∘ adjust_slots attrs
      = fun s => decide (s.type = T) := by
    funext s
    simp [adjust_slots_type]
  rw [this]

theorem slot_of_type (tpl : List CK_ATTRIBUTE) (T : CK_ATTRIBUTE_TYPE) (slot : CK_ATTRIBUTE)
    (h : slot_of tpl T = some slot) : slot.type = T := by
  have := List.find?_some h
  simpa using this

theorem keeps_frame_of_nodup (tpl attrs : List CK_ATTRIBUTE)
    (hnd : (tpl.map CK_ATTRIBUTE.type).Nodup) :
    keeps_frame tpl (adjust_template tpl attrs) attrs := by
  rw [adjust_template_eq_map tpl attrs hnd]
  have ht : (tpl.map (adjust_slots attrs)).map CK_ATTRIBUTE.type
      = tpl.map CK_ATTRIBUTE.type := by
    rw [List.map_map]
    congr 1
    funext s
    exact adjust_slots_type attrs s
  refine ⟨ht, ?_, ?_, ?_⟩
  · rw [List.map_map]
    congr 1
    funext s
    exact adjust_slots_len attrs s
  · rw [ht]; exact hnd
  · intro i slot hi hfree
    rw [List.getElem?_map, hi]
    show some (adjust_slots attrs slot) = some slot
    rw [adjust_slots_untouched attrs slot hfree]

theorem find?_eq_head?_filter {α : Type} (q : α → Bool) (l : List α) :
    l.find? q = (l.filter q).head? := by
  induction l with
  | nil => rfl
  | cons x xs ih =>
    by_cases h : q x = true
    · rw [List.find?_cons_of_pos _ h, List.filter_cons_of_pos h]; rfl
    · rw [List.find?_cons_of_neg _ h, List.filter_cons_of_neg h]; exact ih

/-- The slot for `T` after the merge is the default slot for `T` run through
the descriptors of tag `T`, in the order of the list. -/
theorem slot_of_merged (tpl attrs : List CK_ATTRIBUTE) (T : CK_ATTRIBUTE_TYPE)
    (slot : CK_ATTRIBUTE) (hnd : (tpl.map CK_ATTRIBUTE.type).Nodup)
    (hslot : slot_of tpl T = some slot) :
    slot_of (adjust_template tpl attrs) T
      = some (adjust_slots (attrs.filter (fun e => decide (e.type = T))) slot) := by
  have hT : slot.type = T := slot_of_type tpl T slot hslot
  rw [adjust_template_eq_map tpl attrs hnd, slot_of_map_adjust_slots, hslot, Option.map_some',
    adjust_slots_filter, hT]

/-- C1: in the public or the private default template of `pkcs11_genDSA`,
when the override list holds exactly one descriptor `d` of a tag `T` that the
template has, the merged slot for `T` carries the value of `d` if the
declared length of `d` equals that of the slot, and is the unchanged default
slot if the lengths differ. -/
theorem override_single_descriptor
    (gentype : key_generation_t) (label id dsa_p dsa_q dsa_g : List CK_BYTE)
    (dsa_p_len dsa_q_len dsa_g_len : CK_ULONG)
    (tpl attrs : List CK_ATTRIBUTE) (T : CK_ATTRIBUTE_TYPE) (d slot : CK_ATTRIBUTE)
    (htpl : tpl = pubktemplate gentype label id dsa_p dsa_p_len dsa_q dsa_q_len dsa_g dsa_g_len
      ∨ tpl = prvktemplate gentype label id)
    (hslot : slot_of tpl T = some slot)
    (hd : attrs.filter (fun e => decide (e.type = T)) = [d]) :
    (d.ulValueLen = slot.ulValueLen →
      slot_of (adjust_template tpl attrs) T = some { slot with pValue := d.pValue }) ∧
    (d.ulValueLen ≠ slot.ulValueLen →
      slot_of (adjust_template tpl attrs) T = some slot) := by
  have hnd : (tpl.map CK_ATTRIBUTE.type).Nodup := by
    rcases htpl with h | h
    · rw [h]; exact pubktemplate_nodup _ _ _ _ _ _ _ _ _
    · rw [h]; exact prvktemplate_nodup _ _ _
  have hT : slot.type = T := slot_of_type tpl T slot hslot
  have hdT : d.type = T := by
    have : d ∈ attrs.filter (fun e => decide (e.type = T)) := by rw [hd]; simp
    simpa using (List.mem_filter.mp this).2
  rw [slot_of_merged tpl attrs T slot hnd hslot, hd]
  show (_ → some (adjust_slot d slot) = _) ∧ (_ → some (adjust_slot d slot) = _)
  constructor
  · intro hl
    simp [adjust_slot, hT, hdT, hl]
  · intro hl
    have : ¬ (slot.type = d.type ∧ slot.ulValueLen = d.ulValueLen) := fun hc => hl hc.2.symm
    simp [adjust_slot, this]

/-- Witness for C1, in the private template of a session key labelled "k1":
a sign override of the slot's length is taken, a label override of another
length is dropped. -/
theorem override_single_descriptor_witness :
    slot_of (adjust_template (prvktemplate kg_session [107, 49] [])
        [⟨CKA_LABEL, [107, 50], 2⟩, ⟨CKA_SIGN, [CK_TRUE], 1⟩]) CKA_SIGN
      = some ⟨CKA_SIGN, [CK_TRUE], 1⟩ ∧
    slot_of (adjust_template (prvktemplate kg_session [107, 49] [])
        [⟨CKA_LABEL, [107, 50, 51], 3⟩, ⟨CKA_SIGN, [CK_TRUE], 1⟩]) CKA_LABEL
      = some ⟨CKA_LABEL, [107, 49], 2⟩ :=
  ⟨(override_single_descriptor kg_session [107, 49] [] [] [] [] 0 0 0
      (prvktemplate kg_session [107, 49] [])
      [⟨CKA_LABEL, [107, 50], 2⟩, ⟨CKA_SIGN, [CK_TRUE], 1⟩] CKA_SIGN
      ⟨CKA_SIGN, [CK_TRUE], 1⟩ ⟨CKA_SIGN, [CK_FALSE], 1⟩
      (Or.inr rfl) (by decide) (by decide)).1 rfl,
   (override_single_descriptor kg_session [107, 49] [] [] [] [] 0 0 0
      (prvktemplate kg_session [107, 49] [])
      [⟨CKA_LABEL, [107, 50, 51], 3⟩, ⟨CKA_SIGN, [CK_TRUE], 1⟩] CKA_LABEL
      ⟨CKA_LABEL, [107, 50, 51], 3⟩ ⟨CKA_LABEL, [107, 49], 2⟩
      (Or.inr rfl) (by decide) (by decide)).2 (by decide)⟩

/-- C2: whatever the mode, label, domain parameters and override list, the
merged public and private templates have the tags and the declared lengths
of the default templates in the same order, their tags are pairwise
distinct, and each slot whose tag is absent from the override list is the
default slot. -/
theorem merge_keeps_frame
    (gentype : key_generation_t) (label id dsa_p dsa_q dsa_g : List CK_BYTE)
    (dsa_p_len dsa_q_len dsa_g_len : CK_ULONG) (attrs : List CK_ATTRIBUTE) :
    keeps_frame
      (pubktemplate gentype label id dsa_p dsa_p_len dsa_q dsa_q_len dsa_g dsa_g_len)
      (adjust_template
        (pubktemplate gentype label id dsa_p dsa_p_len dsa_q dsa_q_len dsa_g dsa_g_len) attrs)
      attrs ∧
    keeps_frame (prvktemplate gentype label id)
      (adjust_template (prvktemplate gentype label id) attrs) attrs :=
  ⟨keeps_frame_of_nodup _ _ (pubktemplate_nodup _ _ _ _ _ _ _ _ _),
   keeps_frame_of_nodup _ _ (prvktemplate_nodup _ _ _)⟩

/-! ## The paths through `pkcs11_genDSA` -/

theorem pkcs11_genDSA_no_file {σ : Type} (tok : Token σ) (session : σ)
    (label id : List CK_BYTE) (param : ParamFile) (attrs : List CK_ATTRIBUTE)
    (pubkhandle prvkhandle : CK_OBJECT_HANDLE) (gentype : key_generation_t)
    (hload : new_dsaparam_from_file param = none) :
    pkcs11_genDSA tok session label id param attrs pubkhandle prvkhandle gentype
      = ⟨some rc_error_invalid_parameter_for_method, pubkhandle, prvkhandle, [], session⟩ := by
  unfold pkcs11_genDSA
  rw [hload]

theorem pkcs11_genDSA_no_prime {σ : Type} (tok : Token σ) (session : σ)
    (label id : List CK_BYTE) (param : ParamFile) (attrs : List CK_ATTRIBUTE)
    (pubkhandle prvkhandle : CK_OBJECT_HANDLE) (gentype : key_generation_t) (dsa : DSA)
    (hload : new_dsaparam_from_file param = some dsa)
    (hp : (get_DSAparam_p param dsa).1 = 0) :
    pkcs11_genDSA tok session label id param attrs pubkhandle prvkhandle gentype
      = ⟨some rc_error_invalid_parameter_for_method, pubkhandle, prvkhandle, [], session⟩ := by
  unfold pkcs11_genDSA
  rw [hload]
  simp [hp]

theorem pkcs11_genDSA_generation_failed {σ : Type} (tok : Token σ) (session : σ)
    (label id : List CK_BYTE) (param : ParamFile) (attrs : List CK_ATTRIBUTE)
    (pubkhandle prvkhandle : CK_OBJECT_HANDLE) (gentype : key_generation_t) (dsa : DSA)
    (hload : new_dsaparam_from_file param = some dsa)
    (hp : (get_DSAparam_p param dsa).1 ≠ 0)
    (hgen : (generation tok session label id param dsa attrs pubkhandle prvkhandle gentype).1
      ≠ CKR_OK) :
    pkcs11_genDSA tok session label id param attrs pubkhandle prvkhandle gentype
      = ⟨some rc_error_pkcs11_api,
         (generation tok session label id param dsa attrs pubkhandle prvkhandle gentype).2.1,
         (generation tok session label id param dsa attrs pubkhandle prvkhandle gentype).2.2.1,
         [generation_call gentype label id param dsa attrs],
         (generation tok session label id param dsa attrs pubkhandle prvkhandle gentype).2.2.2⟩ := by
  simp only [generation, generation_call, passed_pubktemplate, passed_prvktemplate] at hgen ⊢
  unfold pkcs11_genDSA
  rw [hload]
  simp only [hp, or_self, if_false]
  rw [if_pos hgen]

theorem pkcs11_genDSA_generated {σ : Type} (tok : Token σ) (session : σ)
    (label id : List CK_BYTE) (param : ParamFile) (attrs : List CK_ATTRIBUTE)
    (pubkhandle prvkhandle : CK_OBJECT_HANDLE) (gentype : key_generation_t) (dsa : DSA)
    (hload : new_dsaparam_from_file param = some dsa)
    (hp : (get_DSAparam_p param dsa).1 ≠ 0)
    (hgen : (generation tok session label id param dsa attrs pubkhandle prvkhandle gentype).1
      = CKR_OK)
    (hmode : gentype ≠ kg_token_for_wrapping) :
    pkcs11_genDSA tok session label id param attrs pubkhandle prvkhandle gentype
      = ⟨some rc_ok,
         (generation tok session label id param dsa attrs pubkhandle prvkhandle gentype).2.1,
         (generation tok session label id param dsa attrs pubkhandle prvkhandle gentype).2.2.1,
         [generation_call gentype label id param dsa attrs],
         (generation tok session label id param dsa attrs pubkhandle prvkhandle gentype).2.2.2⟩ := by
  simp only [generation, generation_call, passed_pubktemplate, passed_prvktemplate] at hgen ⊢
  unfold pkcs11_genDSA
  rw [hload]
  simp only [hp, or_self, if_false]
  rw [if_neg (not_not.mpr hgen), if_neg hmode]

theorem pkcs11_genDSA_wrapping {σ : Type} (tok : Token σ) (session : σ)
    (label id : List CK_BYTE) (param : ParamFile) (attrs : List CK_ATTRIBUTE)
    (pubkhandle prvkhandle : CK_OBJECT_HANDLE) (dsa : DSA) (ck_extractable : CK_BBOOL)
    (hload : new_dsaparam_from_file param = some dsa)
    (hp : (get_DSAparam_p param dsa).1 ≠ 0)
    (hgen : (generation tok session label id param dsa attrs pubkhandle prvkhandle
      kg_token_for_wrapping).1 = CKR_OK)
    (hext : has_extractable attrs = some ck_extractable) :
    pkcs11_genDSA tok session label id param attrs pubkhandle prvkhandle kg_token_for_wrapping
      = ⟨some rc_ok,
         (generation tok session label id param dsa attrs pubkhandle prvkhandle
           kg_token_for_wrapping).2.1,
         (generation tok session label id param dsa attrs pubkhandle prvkhandle
           kg_token_for_wrapping).2.2.1,
         [generation_call kg_token_for_wrapping label id param dsa attrs,
          Call.CopyObject
            (generation tok session label id param dsa attrs pubkhandle prvkhandle
              kg_token_for_wrapping).2.2.1 (tokentemplate ck_extractable),
          Call.CopyObject
            (generation tok session label id param dsa attrs pubkhandle prvkhandle
              kg_token_for_wrapping).2.1 [⟨CKA_TOKEN, [CK_TRUE], 1⟩]],
         (tok.C_CopyObject
            (tok.C_CopyObject
              (generation tok session label id param dsa attrs pubkhandle prvkhandle
                kg_token_for_wrapping).2.2.2
              (generation tok session label id param dsa attrs pubkhandle prvkhandle
                kg_token_for_wrapping).2.2.1 (tokentemplate ck_extractable)).2
            (generation tok session label id param dsa attrs pubkhandle prvkhandle
              kg_token_for_wrapping).2.1 [⟨CKA_TOKEN, [CK_TRUE], 1⟩]).2⟩ := by
  simp only [generation, generation_call, passed_pubktemplate, passed_prvktemplate] at hgen ⊢
  unfold pkcs11_genDSA
  rw [hload]
  simp only [hp, or_self, if_false]
  rw [if_neg (not_not.mpr hgen), if_pos trivial, hext]
  rfl

theorem pkcs11_genDSA_invalid_read {σ : Type} (tok : Token σ) (session : σ)
    (label id : List CK_BYTE) (param : ParamFile) (attrs : List CK_ATTRIBUTE)
    (pubkhandle prvkhandle : CK_OBJECT_HANDLE) (dsa : DSA)
    (hload : new_dsaparam_from_file param = some dsa)
    (hp : (get_DSAparam_p param dsa).1 ≠ 0)
    (hgen : (generation tok session label id param dsa attrs pubkhandle prvkhandle
      kg_token_for_wrapping).1 = CKR_OK)
    (hext : has_extractable attrs = none) :
    pkcs11_genDSA tok session label id param attrs pubkhandle prvkhandle kg_token_for_wrapping
      = ⟨none,
         (generation tok session label id param dsa attrs pubkhandle prvkhandle
           kg_token_for_wrapping).2.1,
         (generation tok session label id param dsa attrs pubkhandle prvkhandle
           kg_token_for_wrapping).2.2.1,
         [generation_call kg_token_for_wrapping label id param dsa attrs],
         (generation tok session label id param dsa attrs pubkhandle prvkhandle
           kg_token_for_wrapping).2.2.2⟩ := by
  simp only [generation, generation_call, passed_pubktemplate, passed_prvktemplate] at hgen ⊢
  unfold pkcs11_genDSA
  rw [hload]
  simp only [hp, or_self, if_false]
  rw [if_neg (not_not.mpr hgen), if_pos trivial, hext]

/-- Under the two conditions that let a run reach the token, the first entry
of its call log is the generation call with the merged templates. -/
theorem pkcs11_genDSA_first_call {σ : Type} (tok : Token σ) (session : σ)
    (label id : List CK_BYTE) (param : ParamFile) (attrs : List CK_ATTRIBUTE)
    (pubkhandle prvkhandle : CK_OBJECT_HANDLE) (gentype : key_generation_t) (dsa : DSA)
    (hload : new_dsaparam_from_file param = some dsa)
    (hp : (get_DSAparam_p param dsa).1 ≠ 0) :
    (pkcs11_genDSA tok session label id param attrs pubkhandle prvkhandle gentype).calls.head?
      = some (generation_call gentype label id param dsa attrs) := by
  by_cases hgen :
      (generation tok session label id param dsa attrs pubkhandle prvkhandle gentype).1 = CKR_OK
  · by_cases hmode : gentype = kg_token_for_wrapping
    · subst hmode
      cases hext : has_extractable attrs with
      | none =>
        rw [pkcs11_genDSA_invalid_read tok session label id param attrs pubkhandle prvkhandle
          dsa hload hp hgen hext]
        rfl
      | some b =>
        rw [pkcs11_genDSA_wrapping tok session label id param attrs pubkhandle prvkhandle
          dsa b hload hp hgen hext]
        rfl
    · rw [pkcs11_genDSA_generated tok session label id param attrs pubkhandle prvkhandle
        gentype dsa hload hp hgen hmode]
      rfl
  · rw [pkcs11_genDSA_generation_failed tok session label id param attrs pubkhandle prvkhandle
      gentype dsa hload hp hgen]
    rfl

/-- On every path the call log holds at most one generation call. -/
theorem pkcs11_genDSA_generations_le_one {σ : Type} (tok : Token σ) (session : σ)
    (label id : List CK_BYTE) (param : ParamFile) (attrs : List CK_ATTRIBUTE)
    (pubkhandle prvkhandle : CK_OBJECT_HANDLE) (gentype : key_generation_t) :
    (pkcs11_genDSA tok session label id param attrs pubkhandle prvkhandle
      gentype).calls.countP Call.is_generation ≤ 1 := by
  cases hload : new_dsaparam_from_file param with
  | none =>
    rw [pkcs11_genDSA_no_file tok session label id param attrs pubkhandle prvkhandle gentype
      hload]
    simp
  | some dsa =>
    by_cases hp : (get_DSAparam_p param dsa).1 = 0
    · rw [pkcs11_genDSA_no_prime tok session label id param attrs pubkhandle prvkhandle gentype
        dsa hload hp]
      simp
    · by_cases hgen :
        (generation tok session label id param dsa attrs pubkhandle prvkhandle gentype).1
          = CKR_OK
      · by_cases hmode : gentype = kg_token_for_wrapping
        · subst hmode
          cases hext : has_extractable attrs with
          | none =>
            rw [pkcs11_genDSA_invalid_read tok session label id param attrs pubkhandle
              prvkhandle dsa hload hp hgen hext]
            simp [generation_call, Call.is_generation]
          | some b =>
            rw [pkcs11_genDSA_wrapping tok session label id param attrs pubkhandle prvkhandle
              dsa b hload hp hgen hext]
            simp [generation_call, Call.is_generation]
        · rw [pkcs11_genDSA_generated tok session label id param attrs pubkhandle prvkhandle
            gentype dsa hload hp hgen hmode]
          simp [generation_call, Call.is_generation]
      · rw [pkcs11_genDSA_generation_failed tok session label id param attrs pubkhandle
          prvkhandle gentype dsa hload hp hgen]
        simp [generation_call, Call.is_generation]

/-- What `has_extractable` returns, in terms of the first descriptor tagged
`CKA_EXTRACTABLE`: its first value byte, whatever its declared length; and
`CK_FALSE` when there is no such descriptor. -/
theorem has_extractable_eq (attrs : List CK_ATTRIBUTE) :
    has_extractable attrs
      = match slot_of attrs CKA_EXTRACTABLE with
        | some d => d.pValue.head?
        | none => some CK_FALSE := by
  induction attrs with
  | nil => rfl
  | cons x xs ih =>
    by_cases h : x.type = CKA_EXTRACTABLE
    · have hs : slot_of (x :: xs) CKA_EXTRACTABLE = some x := by
        unfold slot_of
        rw [List.find?_cons_of_pos _ (by simpa using h)]
      rw [hs]
      unfold has_extractable
      simp [lfind, compare_CKA, h]
    · have hs : slot_of (x :: xs) CKA_EXTRACTABLE = slot_of xs CKA_EXTRACTABLE := by
        unfold slot_of
        rw [List.find?_cons_of_neg _ (by simpa using h)]
      rw [hs, ← ih]
      have hc : compare_CKA (CK_ATTRIBUTE.mk CKA_EXTRACTABLE [] 0) x ≠ 0 := by
        have : ¬ CKA_EXTRACTABLE = x.type := fun e => h e.symm
        simp [compare_CKA, this]
      unfold has_extractable
      rw [lfind, if_neg hc]
      cases lfind (CK_ATTRIBUTE.mk CKA_EXTRACTABLE [] 0) xs compare_CKA with
      | none => rfl
      | some k => simp

/-! ## The persistent attribute (C3) -/

/-- C3, counterexample: in token-for-wrapping mode (a token-class mode), with
no override, the generation call receives both templates with `CKA_TOKEN`
false, so "true iff token-class" fails there. -/
theorem persistent_false_in_token_for_wrapping :
    (pkcs11_genDSA (scripted_token []) 0 [107, 49] [] sample_param [] 0 0
        kg_token_for_wrapping).calls.head?
      = some (Call.GenerateKeyPair CKM_DSA_KEY_PAIR_GEN
          (passed_pubktemplate kg_token_for_wrapping [107, 49] [] sample_param sample_dsa [])
          (passed_prvktemplate kg_token_for_wrapping [107, 49] [] [])) ∧
    ¬ (bool_value
          (passed_pubktemplate kg_token_for_wrapping [107, 49] [] sample_param sample_dsa [])
          CKA_TOKEN = some CK_TRUE ↔ token_class kg_token_for_wrapping) ∧
    ¬ (bool_value (passed_prvktemplate kg_token_for_wrapping [107, 49] [] []) CKA_TOKEN
          = some CK_TRUE ↔ token_class kg_token_for_wrapping) := by
  decide

/-- C3 (amended): with an empty override list, in every mode, the
`CKA_TOKEN` attribute of the public and of the private template passed to
key-pair generation is true if and only if the mode is `kg_token`; in the
other three modes, token-for-wrapping included, it is false. -/
theorem persistent_iff_token_mode {σ : Type} (tok : Token σ) (session : σ)
    (label id : List CK_BYTE) (param : ParamFile)
    (pubkhandle prvkhandle : CK_OBJECT_HANDLE) (gentype : key_generation_t) (dsa : DSA)
    (hload : new_dsaparam_from_file param = some dsa)
    (hp : (get_DSAparam_p param dsa).1 ≠ 0) :
    (pkcs11_genDSA tok session label id param [] pubkhandle prvkhandle gentype).calls.head?
      = some (Call.GenerateKeyPair CKM_DSA_KEY_PAIR_GEN
          (passed_pubktemplate gentype label id param dsa [])
          (passed_prvktemplate gentype label id [])) ∧
    (bool_value (passed_pubktemplate gentype label id param dsa []) CKA_TOKEN = some CK_TRUE
      ↔ gentype = kg_token) ∧
    (bool_value (passed_prvktemplate gentype label id []) CKA_TOKEN = some CK_TRUE
      ↔ gentype = kg_token) ∧
    (gentype ≠ kg_token →
      bool_value (passed_pubktemplate gentype label id param dsa []) CKA_TOKEN = some CK_FALSE ∧
      bool_value (passed_prvktemplate gentype label id []) CKA_TOKEN = some CK_FALSE) := by
  refine ⟨pkcs11_genDSA_first_call tok session label id param [] pubkhandle prvkhandle gentype
    dsa hload hp, ?_, ?_, ?_⟩ <;>
  cases gentype <;>
  simp [bool_value, slot_of, passed_pubktemplate, passed_prvktemplate, adjust_template,
    pubktemplate, prvktemplate, CK_TRUE, CK_FALSE]

/-- Witness for C3 (amended): the sample parameters in token-for-wrapping
mode. -/
theorem persistent_iff_token_mode_witness :
    new_dsaparam_from_file sample_param = some sample_dsa ∧
    (get_DSAparam_p sample_param sample_dsa).1 ≠ 0 ∧
    bool_value (passed_pubktemplate kg_token_for_wrapping [107, 49] [] sample_param sample_dsa [])
      CKA_TOKEN = some CK_FALSE ∧
    bool_value (passed_prvktemplate kg_token_for_wrapping [107, 49] [] []) CKA_TOKEN
      = some CK_FALSE :=
  ⟨by decide, by decide,
   (persistent_iff_token_mode (scripted_token []) 0 [107, 49] [] sample_param 0 0
      kg_token_for_wrapping sample_dsa (by decide) (by decide)).2.2.2 (by decide)⟩

/-! ## Validation of the domain parameters (C4, C7) -/

/-- C4, the code at a failing input: the file decodes to p = 0x8f45, q = 0,
g = 0x162a; the extracted length of q is zero, yet the run is not rejected:
it calls the token and returns `rc_ok`.  Only a zero length of p is rejected
(second part). -/
theorem zero_length_subprime_accepted :
    (new_dsaparam_from_file zero_q_param = some zero_q_dsa ∧
     (get_DSAparam_p zero_q_param zero_q_dsa).1 = 2 ∧
     (get_DSAparam_q zero_q_param zero_q_dsa).1 = 0 ∧
     (get_DSAparam_g zero_q_param zero_q_dsa).1 = 2 ∧
     (pkcs11_genDSA (scripted_token []) 0 [107, 49] [] zero_q_param [] 0 0 kg_session).rc
       = some rc_ok ∧
     (pkcs11_genDSA (scripted_token []) 0 [107, 49] [] zero_q_param [] 0 0 kg_session).calls
       = [generation_call kg_session [107, 49] [] zero_q_param zero_q_dsa []]) ∧
    ∀ (σ : Type) (tok : Token σ) (session : σ) (label id : List CK_BYTE) (param : ParamFile)
      (attrs : List CK_ATTRIBUTE) (pubkhandle prvkhandle : CK_OBJECT_HANDLE)
      (gentype : key_generation_t) (dsa : DSA),
      new_dsaparam_from_file param = some dsa → (get_DSAparam_p param dsa).1 = 0 →
      (pkcs11_genDSA tok session label id param attrs pubkhandle prvkhandle gentype).rc
        = some rc_error_invalid_parameter_for_method := by
  refine ⟨by decide, ?_⟩
  intro σ tok session label id param attrs pubkhandle prvkhandle gentype dsa hload hp
  rw [pkcs11_genDSA_no_prime tok session label id param attrs pubkhandle prvkhandle gentype
    dsa hload hp]

/-- C7, the code at a failing input: the file decodes (in PEM form) to
p = 0x8f45, q = 0xc7, g = 0; the extracted length of g is zero, yet in
token-for-wrapping mode the token is called three times, once for the
generation and twice for the duplications.  When the file cannot be loaded,
or p has length zero, the run does return the error without any call to the
token (second part). -/
theorem zero_length_base_reaches_token :
    (new_dsaparam_from_file zero_g_param = some zero_g_dsa ∧
     (get_DSAparam_g zero_g_param zero_g_dsa).1 = 0 ∧
     (pkcs11_genDSA (scripted_token []) 0 [107, 49] [] zero_g_param [] 0 0
         kg_token_for_wrapping).rc = some rc_ok ∧
     (pkcs11_genDSA (scripted_token []) 0 [107, 49] [] zero_g_param [] 0 0
         kg_token_for_wrapping).calls
       = [ generation_call kg_token_for_wrapping [107, 49] [] zero_g_param zero_g_dsa [],
           Call.CopyObject 0x102 (tokentemplate CK_FALSE),
           Call.CopyObject 0x101 [⟨CKA_TOKEN, [CK_TRUE], 1⟩] ]) ∧
    ∀ (σ : Type) (tok : Token σ) (session : σ) (label id : List CK_BYTE) (param : ParamFile)
      (attrs : List CK_ATTRIBUTE) (pubkhandle prvkhandle : CK_OBJECT_HANDLE)
      (gentype : key_generation_t),
      (new_dsaparam_from_file param = none ∨
        ∃ dsa, new_dsaparam_from_file param = some dsa ∧ (get_DSAparam_p param dsa).1 = 0) →
      (pkcs11_genDSA tok session label id param attrs pubkhandle prvkhandle gentype).rc
        = some rc_error_invalid_parameter_for_method ∧
      (pkcs11_genDSA tok session label id param attrs pubkhandle prvkhandle gentype).calls
        = [] := by
  refine ⟨by decide, ?_⟩
  intro σ tok session label id param attrs pubkhandle prvkhandle gentype h
  rcases h with hload | ⟨dsa, hload, hp⟩
  · rw [pkcs11_genDSA_no_file tok session label id param attrs pubkhandle prvkhandle gentype
      hload]
    exact ⟨rfl, rfl⟩
  · rw [pkcs11_genDSA_no_prime tok session label id param attrs pubkhandle prvkhandle gentype
      dsa hload hp]
    exact ⟨rfl, rfl⟩

/-! ## Failure of the generation call (C8) -/

/-- C8: on every path the call log holds at most one generation call; and
when the generation call is reached and answers anything but `CKR_OK`, the
run returns `rc_error_pkcs11_api` and its call log is that single generation
call, with no duplication call. -/
theorem generation_failure_is_final {σ : Type} (tok : Token σ) (session : σ)
    (label id : List CK_BYTE) (param : ParamFile) (attrs : List CK_ATTRIBUTE)
    (pubkhandle prvkhandle : CK_OBJECT_HANDLE) (gentype : key_generation_t) :
    (pkcs11_genDSA tok session label id param attrs pubkhandle prvkhandle
      gentype).calls.countP Call.is_generation ≤ 1 ∧
    ∀ dsa : DSA, new_dsaparam_from_file param = some dsa →
      (get_DSAparam_p param dsa).1 ≠ 0 →
      (generation tok session label id param dsa attrs pubkhandle prvkhandle gentype).1
        ≠ CKR_OK →
      (pkcs11_genDSA tok session label id param attrs pubkhandle prvkhandle gentype).rc
        = some rc_error_pkcs11_api ∧
      (pkcs11_genDSA tok session label id param attrs pubkhandle prvkhandle gentype).calls
        = [generation_call gentype label id param dsa attrs] ∧
      (pkcs11_genDSA tok session label id param attrs pubkhandle prvkhandle
        gentype).calls.countP Call.is_generation = 1 ∧
      (pkcs11_genDSA tok session label id param attrs pubkhandle prvkhandle
        gentype).calls.countP Call.is_copy = 0 := by
  refine ⟨pkcs11_genDSA_generations_le_one tok session label id param attrs pubkhandle
    prvkhandle gentype, ?_⟩
  intro dsa hload hp hgen
  rw [pkcs11_genDSA_generation_failed tok session label id param attrs pubkhandle prvkhandle
    gentype dsa hload hp hgen]
  simp [generation_call, Call.is_generation, Call.is_copy]

/-- Witness for C8: a token that answers the generation call with status 7,
in token-for-wrapping mode with an extractable override. -/
theorem generation_failure_is_final_witness :
    (pkcs11_genDSA (scripted_token [7]) 0 [107, 49] [] sample_param
        [⟨CKA_EXTRACTABLE, [CK_TRUE], 1⟩] 0 0 kg_token_for_wrapping).rc
      = some rc_error_pkcs11_api ∧
    (pkcs11_genDSA (scripted_token [7]) 0 [107, 49] [] sample_param
        [⟨CKA_EXTRACTABLE, [CK_TRUE], 1⟩] 0 0 kg_token_for_wrapping).calls
      = [generation_call kg_token_for_wrapping [107, 49] [] sample_param sample_dsa
          [⟨CKA_EXTRACTABLE, [CK_TRUE], 1⟩]] :=
  have h := (generation_failure_is_final (scripted_token [7]) 0 [107, 49] [] sample_param
    [⟨CKA_EXTRACTABLE, [CK_TRUE], 1⟩] 0 0 kg_token_for_wrapping).2 sample_dsa
    (by decide) (by decide) (by decide)
  ⟨h.1, h.2.1⟩

/-! ## The default templates (C9) -/

theorem get_OPENSSL_bytes_for_BIGNUM_some (f : ParamFile) (bn : BIGNUM)
    (hne : bn ≠ []) (hm : f.OPENSSL_malloc bn.length = true) :
    get_OPENSSL_bytes_for_BIGNUM f (some bn) = (bn.length, bn) := by
  have hlen : bn.length ≠ 0 := fun h => hne (List.length_eq_zero.mp h)
  simp [get_OPENSSL_bytes_for_BIGNUM, hm, hlen]

/-- C9: with an empty override list, in every mode, when the file yields
parameters p, q, g that are all extracted with a non-zero length, the
generation call receives the default templates: the public one with the
label, prime = p, subprime = q, base = g and verify false; the private one
with private true, sensitive true, sign false, the label, and extractable
true exactly in session-for-wrapping mode. -/
theorem default_templates_passed {σ : Type} (tok : Token σ) (session : σ)
    (label id : List CK_BYTE) (param : ParamFile)
    (pubkhandle prvkhandle : CK_OBJECT_HANDLE) (gentype : key_generation_t) (dsa : DSA)
    (p q g : List CK_BYTE)
    (hload : new_dsaparam_from_file param = some dsa)
    (hP : dsa.p = some p) (hQ : dsa.q = some q) (hG : dsa.g = some g)
    (hp : p ≠ []) (hq : q ≠ []) (hg : g ≠ [])
    (hmp : param.OPENSSL_malloc p.length = true)
    (hmq : param.OPENSSL_malloc q.length = true)
    (hmg : param.OPENSSL_malloc g.length = true) :
    (pkcs11_genDSA tok session label id param [] pubkhandle prvkhandle gentype).calls.head?
      = some (Call.GenerateKeyPair CKM_DSA_KEY_PAIR_GEN
          (pubktemplate gentype label id p p.length q q.length g g.length)
          (prvktemplate gentype label id)) ∧
    slot_of (pubktemplate gentype label id p p.length q q.length g g.length) CKA_LABEL
      = some ⟨CKA_LABEL, label, label.length⟩ ∧
    slot_of (pubktemplate gentype label id p p.length q q.length g g.length) CKA_PRIME
      = some ⟨CKA_PRIME, p, p.length⟩ ∧
    slot_of (pubktemplate gentype label id p p.length q q.length g g.length) CKA_SUBPRIME
      = some ⟨CKA_SUBPRIME, q, q.length⟩ ∧
    slot_of (pubktemplate gentype label id p p.length q q.length g g.length) CKA_BASE
      = some ⟨CKA_BASE, g, g.length⟩ ∧
    bool_value (pubktemplate gentype label id p p.length q q.length g g.length) CKA_VERIFY
      = some CK_FALSE ∧
    bool_value (prvktemplate gentype label id) CKA_PRIVATE = some CK_TRUE ∧
    bool_value (prvktemplate gentype label id) CKA_SENSITIVE = some CK_TRUE ∧
    bool_value (prvktemplate gentype label id) CKA_SIGN = some CK_FALSE ∧
    slot_of (prvktemplate gentype label id) CKA_LABEL = some ⟨CKA_LABEL, label, label.length⟩ ∧
    (bool_value (prvktemplate gentype label id) CKA_EXTRACTABLE = some CK_TRUE
      ↔ gentype = kg_session_for_wrapping) ∧
    (gentype ≠ kg_session_for_wrapping →
      bool_value (prvktemplate gentype label id) CKA_EXTRACTABLE = some CK_FALSE) := by
  have ep : get_DSAparam_p param dsa = (p.length, p) := by
    rw [get_DSAparam_p, hP]; exact get_OPENSSL_bytes_for_BIGNUM_some param p hp hmp
  have eq : get_DSAparam_q param dsa = (q.length, q) := by
    rw [get_DSAparam_q, hQ]; exact get_OPENSSL_bytes_for_BIGNUM_some param q hq hmq
  have eg : get_DSAparam_g param dsa = (g.length, g) := by
    rw [get_DSAparam_g, hG]; exact get_OPENSSL_bytes_for_BIGNUM_some param g hg hmg
  have hpl : (get_DSAparam_p param dsa).1 ≠ 0 := by
    rw [ep]; exact fun h => hp (List.length_eq_zero.mp h)
  have hcall := pkcs11_genDSA_first_call tok session label id param [] pubkhandle prvkhandle
    gentype dsa hload hpl
  simp only [generation_call, passed_pubktemplate, passed_prvktemplate, adjust_template,
    List.foldl_nil, ep, eq, eg] at hcall
  refine ⟨hcall, ?_, ?_, ?_, ?_, ?_, ?_, ?_, ?_, ?_, ?_, ?_⟩ <;>
  cases gentype <;>
  simp [bool_value, slot_of, pubktemplate, prvktemplate, CKA_TOKEN, CKA_PRIVATE, CKA_LABEL,
    CKA_ID, CKA_SENSITIVE, CKA_SIGN, CKA_VERIFY, CKA_PRIME, CKA_SUBPRIME, CKA_BASE,
    CKA_EXTRACTABLE, CK_TRUE, CK_FALSE]

/-- Witness for C9: the sample parameters, label "k1", mode `kg_token`. -/
theorem default_templates_passed_witness :
    new_dsaparam_from_file sample_param = some sample_dsa ∧
    (pkcs11_genDSA (scripted_token []) 0 [107, 49] [] sample_param [] 0 0 kg_token).calls.head?
      = some (Call.GenerateKeyPair CKM_DSA_KEY_PAIR_GEN
          (pubktemplate kg_token [107, 49] [] [0x8f, 0x45] 2 [0xc7] 1 [0x16, 0x2a] 2)
          (prvktemplate kg_token [107, 49] [])) ∧
    bool_value (prvktemplate kg_token [107, 49] []) CKA_EXTRACTABLE = some CK_FALSE :=
  have h := default_templates_passed (scripted_token []) 0 [107, 49] [] sample_param 0 0
    kg_token sample_dsa [0x8f, 0x45] [0xc7] [0x16, 0x2a] (by decide) rfl rfl rfl
    (by decide) (by decide) (by decide) (by decide) (by decide) (by decide)
  ⟨by decide, h.1, h.2.2.2.2.2.2.2.2.2.2.2 (by decide)⟩

/-! ## The duplication into persistent storage (C5, C6, C10) -/

/-- C5, counterexample: the override list holds an extractable descriptor
with value false followed by one with value true; it does contain an
extractable descriptor whose value is true, yet the private key is duplicated
with extractable false. -/
theorem extractable_true_not_first :
    (∃ d ∈ [CK_ATTRIBUTE.mk CKA_EXTRACTABLE [CK_FALSE] 1,
            CK_ATTRIBUTE.mk CKA_EXTRACTABLE [CK_TRUE] 1],
        d.type = CKA_EXTRACTABLE ∧ d.pValue.head? = some CK_TRUE) ∧
    (pkcs11_genDSA (scripted_token []) 0 [107, 49] [] sample_param
        [⟨CKA_EXTRACTABLE, [CK_FALSE], 1⟩, ⟨CKA_EXTRACTABLE, [CK_TRUE], 1⟩] 0 0
        kg_token_for_wrapping).rc = some rc_ok ∧
    (pkcs11_genDSA (scripted_token []) 0 [107, 49] [] sample_param
        [⟨CKA_EXTRACTABLE, [CK_FALSE], 1⟩, ⟨CKA_EXTRACTABLE, [CK_TRUE], 1⟩] 0 0
        kg_token_for_wrapping).calls[1]?
      = some (Call.CopyObject 0x102
          [⟨CKA_TOKEN, [CK_TRUE], 1⟩, ⟨CKA_EXTRACTABLE, [CK_FALSE], 1⟩]) := by
  decide

/-- C5 (amended): in token-for-wrapping mode, once the key pair is
generated, the private key is duplicated with the template
{`CKA_TOKEN` true, `CKA_EXTRACTABLE` w}, where w is the first value byte of
the first descriptor tagged `CKA_EXTRACTABLE` in the override list, and false
when the list has no such descriptor. -/
theorem duplication_template_from_first_extractable {σ : Type} (tok : Token σ) (session : σ)
    (label id : List CK_BYTE) (param : ParamFile) (attrs : List CK_ATTRIBUTE)
    (pubkhandle prvkhandle : CK_OBJECT_HANDLE) (dsa : DSA)
    (hload : new_dsaparam_from_file param = some dsa)
    (hp : (get_DSAparam_p param dsa).1 ≠ 0)
    (hgen : (generation tok session label id param dsa attrs pubkhandle prvkhandle
      kg_token_for_wrapping).1 = CKR_OK) :
    (slot_of attrs CKA_EXTRACTABLE = none →
      (pkcs11_genDSA tok session label id param attrs pubkhandle prvkhandle
          kg_token_for_wrapping).calls[1]?
        = some (Call.CopyObject
            (pkcs11_genDSA tok session label id param attrs pubkhandle prvkhandle
              kg_token_for_wrapping).prvkhandle
            [⟨CKA_TOKEN, [CK_TRUE], 1⟩, ⟨CKA_EXTRACTABLE, [CK_FALSE], 1⟩])) ∧
    (∀ (d : CK_ATTRIBUTE) (b : CK_BBOOL) (rest : List CK_BYTE),
      slot_of attrs CKA_EXTRACTABLE = some d → d.pValue = b :: rest →
      (pkcs11_genDSA tok session label id param attrs pubkhandle prvkhandle
          kg_token_for_wrapping).calls[1]?
        = some (Call.CopyObject
            (pkcs11_genDSA tok session label id param attrs pubkhandle prvkhandle
              kg_token_for_wrapping).prvkhandle
            [⟨CKA_TOKEN, [CK_TRUE], 1⟩, ⟨CKA_EXTRACTABLE, [b], 1⟩])) := by
  constructor
  · intro hnone
    have hext : has_extractable attrs = some CK_FALSE := by
      rw [has_extractable_eq, hnone]
    rw [pkcs11_genDSA_wrapping tok session label id param attrs pubkhandle prvkhandle dsa
      CK_FALSE hload hp hgen hext]
    rfl
  · intro d b rest hd hv
    have hext : has_extractable attrs = some b := by
      rw [has_extractable_eq, hd]
      show d.pValue.head? = some b
      rw [hv]; rfl
    rw [pkcs11_genDSA_wrapping tok session label id param attrs pubkhandle prvkhandle dsa
      b hload hp hgen hext]
    rfl

/-- Witness for C5 (amended): value false first, value true second. -/
theorem duplication_template_from_first_extractable_witness :
    (generation (scripted_token []) 0 [107, 49] [] sample_param sample_dsa
      [⟨CKA_EXTRACTABLE, [CK_FALSE], 1⟩, ⟨CKA_EXTRACTABLE, [CK_TRUE], 1⟩] 0 0
      kg_token_for_wrapping).1 = CKR_OK ∧
    (pkcs11_genDSA (scripted_token []) 0 [107, 49] [] sample_param
        [⟨CKA_EXTRACTABLE, [CK_FALSE], 1⟩, ⟨CKA_EXTRACTABLE, [CK_TRUE], 1⟩] 0 0
        kg_token_for_wrapping).calls[1]?
      = some (Call.CopyObject
          (pkcs11_genDSA (scripted_token []) 0 [107, 49] [] sample_param
            [⟨CKA_EXTRACTABLE, [CK_FALSE], 1⟩, ⟨CKA_EXTRACTABLE, [CK_TRUE], 1⟩] 0 0
            kg_token_for_wrapping).prvkhandle
          [⟨CKA_TOKEN, [CK_TRUE], 1⟩, ⟨CKA_EXTRACTABLE, [CK_FALSE], 1⟩]) :=
  ⟨by decide,
   (duplication_template_from_first_extractable (scripted_token []) 0 [107, 49] []
      sample_param [⟨CKA_EXTRACTABLE, [CK_FALSE], 1⟩, ⟨CKA_EXTRACTABLE, [CK_TRUE], 1⟩] 0 0
      sample_dsa (by decide) (by decide) (by decide)).2
      ⟨CKA_EXTRACTABLE, [CK_FALSE], 1⟩ CK_FALSE [] (by decide) rfl⟩

/-- C6, counterexample: the override list is the single descriptor
{`CKA_EXTRACTABLE`, `NULL`, 0}.  Loading, validation and generation succeed,
then `has_extractable` reads through the null pointer: the run does not
return `rc_ok`, and no duplication is attempted. -/
theorem wrapping_mode_invalid_read :
    new_dsaparam_from_file sample_param = some sample_dsa ∧
    (get_DSAparam_p sample_param sample_dsa).1 ≠ 0 ∧
    (generation (scripted_token []) 0 [107, 49] [] sample_param sample_dsa
      [⟨CKA_EXTRACTABLE, [], 0⟩] 0 0 kg_token_for_wrapping).1 = CKR_OK ∧
    (pkcs11_genDSA (scripted_token []) 0 [107, 49] [] sample_param
        [⟨CKA_EXTRACTABLE, [], 0⟩] 0 0 kg_token_for_wrapping).rc ≠ some rc_ok ∧
    (pkcs11_genDSA (scripted_token []) 0 [107, 49] [] sample_param
        [⟨CKA_EXTRACTABLE, [], 0⟩] 0 0 kg_token_for_wrapping).calls.countP Call.is_copy = 0 := by
  decide

/-- C6 (amended): in token-for-wrapping mode, when loading, validation and
generation succeed and the first descriptor tagged `CKA_EXTRACTABLE` in the
override list, if there is one, has a value byte to read, the run returns
`rc_ok` with the handles the generation call left, whatever the two
duplication calls answer; both duplications are attempted, the public one
after the private one and regardless of its answer. -/
theorem wrapping_mode_succeeds {σ : Type} (tok : Token σ) (session : σ)
    (label id : List CK_BYTE) (param : ParamFile) (attrs : List CK_ATTRIBUTE)
    (pubkhandle prvkhandle : CK_OBJECT_HANDLE) (dsa : DSA)
    (hload : new_dsaparam_from_file param = some dsa)
    (hp : (get_DSAparam_p param dsa).1 ≠ 0)
    (hgen : (generation tok session label id param dsa attrs pubkhandle prvkhandle
      kg_token_for_wrapping).1 = CKR_OK)
    (hread : ∀ d : CK_ATTRIBUTE, slot_of attrs CKA_EXTRACTABLE = some d → d.pValue ≠ []) :
    (pkcs11_genDSA tok session label id param attrs pubkhandle prvkhandle
        kg_token_for_wrapping).rc = some rc_ok ∧
    (pkcs11_genDSA tok session label id param attrs pubkhandle prvkhandle
        kg_token_for_wrapping).pubkhandle
      = (generation tok session label id param dsa attrs pubkhandle prvkhandle
          kg_token_for_wrapping).2.1 ∧
    (pkcs11_genDSA tok session label id param attrs pubkhandle prvkhandle
        kg_token_for_wrapping).prvkhandle
      = (generation tok session label id param dsa attrs pubkhandle prvkhandle
          kg_token_for_wrapping).2.2.1 ∧
    ∃ w : CK_BBOOL,
      (pkcs11_genDSA tok session label id param attrs pubkhandle prvkhandle
          kg_token_for_wrapping).calls
        = [ generation_call kg_token_for_wrapping label id param dsa attrs,
            Call.CopyObject
              (generation tok session label id param dsa attrs pubkhandle prvkhandle
                kg_token_for_wrapping).2.2.1 (tokentemplate w),
            Call.CopyObject
              (generation tok session label id param dsa attrs pubkhandle prvkhandle
                kg_token_for_wrapping).2.1 [⟨CKA_TOKEN, [CK_TRUE], 1⟩] ] := by
  have hext : ∃ w, has_extractable attrs = some w := by
    rw [has_extractable_eq]
    cases hs : slot_of attrs CKA_EXTRACTABLE with
    | none => exact ⟨CK_FALSE, rfl⟩
    | some d =>
      have hne := hread d hs
      cases hv : d.pValue with
      | nil => exact absurd hv hne
      | cons b rest =>
        refine ⟨b, ?_⟩
        show d.pValue.head? = some b
        rw [hv]; rfl
  obtain ⟨w, hw⟩ := hext
  rw [pkcs11_genDSA_wrapping tok session label id param attrs pubkhandle prvkhandle dsa
    w hload hp hgen hw]
  exact ⟨rfl, rfl, rfl, w, rfl⟩

/-- Witness for C6 (amended): the token generates the pair and then refuses
both duplications, with status 5 and status 6. -/
theorem wrapping_mode_succeeds_witness :
    ((scripted_token [CKR_OK, 5, 6]).C_CopyObject 1 0x102 (tokentemplate CK_TRUE)).1 = 5 ∧
    ((scripted_token [CKR_OK, 5, 6]).C_CopyObject 2 0x101 [⟨CKA_TOKEN, [CK_TRUE], 1⟩]).1 = 6 ∧
    (pkcs11_genDSA (scripted_token [CKR_OK, 5, 6]) 0 [107, 49] [] sample_param
        [⟨CKA_EXTRACTABLE, [CK_TRUE], 1⟩] 0 0 kg_token_for_wrapping).rc = some rc_ok ∧
    (pkcs11_genDSA (scripted_token [CKR_OK, 5, 6]) 0 [107, 49] [] sample_param
        [⟨CKA_EXTRACTABLE, [CK_TRUE], 1⟩] 0 0 kg_token_for_wrapping).pubkhandle = 0x101 ∧
    (pkcs11_genDSA (scripted_token [CKR_OK, 5, 6]) 0 [107, 49] [] sample_param
        [⟨CKA_EXTRACTABLE, [CK_TRUE], 1⟩] 0 0 kg_token_for_wrapping).prvkhandle = 0x102 :=
  have h := wrapping_mode_succeeds (scripted_token [CKR_OK, 5, 6]) 0 [107, 49] []
    sample_param [⟨CKA_EXTRACTABLE, [CK_TRUE], 1⟩] 0 0 sample_dsa
    (by decide) (by decide) (by decide)
    (by
      intro d hd
      have hd2 : d = ⟨CKA_EXTRACTABLE, [CK_TRUE], 1⟩ := by
        have : slot_of [CK_ATTRIBUTE.mk CKA_EXTRACTABLE [CK_TRUE] 1] CKA_EXTRACTABLE
            = some ⟨CKA_EXTRACTABLE, [CK_TRUE], 1⟩ := by decide
        rw [this] at hd
        exact (Option.some.inj hd).symm
      rw [hd2]
      decide)
  ⟨by decide, by decide, h.1, h.2.1, h.2.2.1⟩

theorem prvktemplate_extractable_slot (label id : List CK_BYTE) :
    slot_of (prvktemplate kg_token_for_wrapping label id) CKA_EXTRACTABLE
      = some ⟨CKA_EXTRACTABLE, [CK_FALSE], 1⟩ := by
  simp [slot_of, prvktemplate, CKA_TOKEN, CKA_PRIVATE, CKA_SENSITIVE, CKA_EXTRACTABLE]

/-- With at most one extractable descriptor, of declared length one if
present, `has_extractable` reads what the merged private template holds for
`CKA_EXTRACTABLE`. -/
theorem has_extractable_eq_merged (label id : List CK_BYTE) (attrs : List CK_ATTRIBUTE)
    (hone : (attrs.filter (fun e => decide (e.type = CKA_EXTRACTABLE))).length ≤ 1)
    (hlen : ∀ d ∈ attrs, d.type = CKA_EXTRACTABLE → d.ulValueLen = 1) :
    has_extractable attrs
      = bool_value (passed_prvktemplate kg_token_for_wrapping label id attrs)
          CKA_EXTRACTABLE := by
  have hm := slot_of_merged (prvktemplate kg_token_for_wrapping label id) attrs CKA_EXTRACTABLE
    ⟨CKA_EXTRACTABLE, [CK_FALSE], 1⟩ (prvktemplate_nodup _ _ _)
    (prvktemplate_extractable_slot label id)
  have hf : slot_of attrs CKA_EXTRACTABLE
      = (attrs.filter (fun e => decide (e.type = CKA_EXTRACTABLE))).head? :=
    find?_eq_head?_filter _ attrs
  rw [has_extractable_eq, hf]
  unfold bool_value passed_prvktemplate
  rw [hm]
  cases hF : attrs.filter (fun e => decide (e.type = CKA_EXTRACTABLE)) with
  | nil => rfl
  | cons d ds =>
    have hds : ds = [] := by
      rw [hF] at hone
      cases ds with
      | nil => rfl
      | cons e es => simp at hone
    subst hds
    have hmem : d ∈ attrs.filter (fun e => decide (e.type = CKA_EXTRACTABLE)) := by
      rw [hF]; simp
    have hd := List.mem_filter.mp hmem
    have hT : d.type = CKA_EXTRACTABLE := by simpa using hd.2
    have hl : d.ulValueLen = 1 := hlen d hd.1 hT
    show d.pValue.head? = (adjust_slot d ⟨CKA_EXTRACTABLE, [CK_FALSE], 1⟩).pValue.head?
    simp [adjust_slot, hT, hl]

/-- C10: in token-for-wrapping mode, for every override list with at most
one descriptor tagged `CKA_EXTRACTABLE`, whose declared length is one byte if
it is present, the value `has_extractable` reads is the value of the
`CKA_EXTRACTABLE` slot of the merged private template handed to the
generation call, and whenever that slot has a value, it is the extractable
value of the template the private key is duplicated with. -/
theorem duplication_extractable_agrees_with_generation {σ : Type} (tok : Token σ)
    (session : σ) (label id : List CK_BYTE) (param : ParamFile) (attrs : List CK_ATTRIBUTE)
    (pubkhandle prvkhandle : CK_OBJECT_HANDLE) (dsa : DSA)
    (hload : new_dsaparam_from_file param = some dsa)
    (hp : (get_DSAparam_p param dsa).1 ≠ 0)
    (hgen : (generation tok session label id param dsa attrs pubkhandle prvkhandle
      kg_token_for_wrapping).1 = CKR_OK)
    (hone : (attrs.filter (fun e => decide (e.type = CKA_EXTRACTABLE))).length ≤ 1)
    (hlen : ∀ d ∈ attrs, d.type = CKA_EXTRACTABLE → d.ulValueLen = 1) :
    (pkcs11_genDSA tok session label id param attrs pubkhandle prvkhandle
        kg_token_for_wrapping).calls.head?
      = some (Call.GenerateKeyPair CKM_DSA_KEY_PAIR_GEN
          (passed_pubktemplate kg_token_for_wrapping label id param dsa attrs)
          (passed_prvktemplate kg_token_for_wrapping label id attrs)) ∧
    has_extractable attrs
      = bool_value (passed_prvktemplate kg_token_for_wrapping label id attrs)
          CKA_EXTRACTABLE ∧
    ∀ b : CK_BBOOL,
      bool_value (passed_prvktemplate kg_token_for_wrapping label id attrs) CKA_EXTRACTABLE
        = some b →
      (pkcs11_genDSA tok session label id param attrs pubkhandle prvkhandle
          kg_token_for_wrapping).calls[1]?
        = some (Call.CopyObject
            (pkcs11_genDSA tok session label id param attrs pubkhandle prvkhandle
              kg_token_for_wrapping).prvkhandle
            [⟨CKA_TOKEN, [CK_TRUE], 1⟩, ⟨CKA_EXTRACTABLE, [b], 1⟩]) := by
  have heq := has_extractable_eq_merged label id attrs hone hlen
  refine ⟨pkcs11_genDSA_first_call tok session label id param attrs pubkhandle prvkhandle
    kg_token_for_wrapping dsa hload hp, heq, ?_⟩
  intro b hb
  rw [pkcs11_genDSA_wrapping tok session label id param attrs pubkhandle prvkhandle dsa
    b hload hp hgen (heq.trans hb)]
  rfl

/-- Witness for C10: a single extractable override with value true. -/
theorem duplication_extractable_agrees_with_generation_witness :
    bool_value (passed_prvktemplate kg_token_for_wrapping [107, 49] []
        [⟨CKA_LABEL, [107, 50], 2⟩, ⟨CKA_EXTRACTABLE, [CK_TRUE], 1⟩]) CKA_EXTRACTABLE
      = some CK_TRUE ∧
    (pkcs11_genDSA (scripted_token []) 0 [107, 49] [] sample_param
        [⟨CKA_LABEL, [107, 50], 2⟩, ⟨CKA_EXTRACTABLE, [CK_TRUE], 1⟩] 0 0
        kg_token_for_wrapping).calls[1]?
      = some (Call.CopyObject
          (pkcs11_genDSA (scripted_token []) 0 [107, 49] [] sample_param
            [⟨CKA_LABEL, [107, 50], 2⟩, ⟨CKA_EXTRACTABLE, [CK_TRUE], 1⟩] 0 0
            kg_token_for_wrapping).prvkhandle
          [⟨CKA_TOKEN, [CK_TRUE], 1⟩, ⟨CKA_EXTRACTABLE, [CK_TRUE], 1⟩]) :=
  ⟨by decide,
   (duplication_extractable_agrees_with_generation (scripted_token []) 0 [107, 49] []
      sample_param [⟨CKA_LABEL, [107, 50], 2⟩, ⟨CKA_EXTRACTABLE, [CK_TRUE], 1⟩] 0 0
      sample_dsa (by decide) (by decide) (by decide) (by decide) (by decide)).2.2
      CK_TRUE (by decide)⟩

/-- The two situations left out by C10, in which the two reads do differ: a
repeated tag (`has_extractable` takes the first descriptor, the merge keeps
the last), and a declared length other than that of the slot (the merge
drops the override, `has_extractable` reads it all the same). -/
theorem extractable_reads_differ :
    (has_extractable
        [⟨CKA_EXTRACTABLE, [CK_FALSE], 1⟩, ⟨CKA_EXTRACTABLE, [CK_TRUE], 1⟩] = some CK_FALSE ∧
     bool_value (passed_prvktemplate kg_token_for_wrapping [107, 49] []
        [⟨CKA_EXTRACTABLE, [CK_FALSE], 1⟩, ⟨CKA_EXTRACTABLE, [CK_TRUE], 1⟩]) CKA_EXTRACTABLE
       = some CK_TRUE) ∧
    (has_extractable [⟨CKA_EXTRACTABLE, [CK_TRUE, 0, 0, 0], 4⟩] = some CK_TRUE ∧
     bool_value (passed_prvktemplate kg_token_for_wrapping [107, 49] []
        [⟨CKA_EXTRACTABLE, [CK_TRUE, 0, 0, 0], 4⟩]) CKA_EXTRACTABLE
       = some CK_FALSE) := by
  decide

end Pkcs11Dsa
